import Mathlib

/-
Verification of the VANTAGE audit-dashboard core (src/app.py) against its
natural-language specification.

The Python script is shallowly embedded below:
  - a ledger row becomes the structure Row; loosely-typed cell payloads
    (the risk_flags column) become the inductive PyVal;
  - pandas groupby/agg (app.py lines 69-72) becomes aggregateStats;
  - sort_values(...).head(25) (line 76) becomes selectTargets;
  - the avg_ticket guard (line 81) becomes avg_ticket;
  - execute_agent_3 (lines 65-130) becomes execute_agent_3; the external
    narration endpoint is passed in as an unused function argument, which
    makes "the function performs no narration call" a provable statement;
  - load_data (lines 55-60) becomes load_data, with the external store
    modelled as a function from attempt number to a fallible result, so
    that "how many attempts are made" is observable;
  - the credential block (lines 49-53) plus the top-level render branch
    (lines 135, 227-228) become app;
  - the global_scan button handler (lines 185-208) becomes parseLine,
    parseCards, renderScan and global_scan; Python str.split is embedded
    as the fuel-based pysplit;
  - get_meta (lines 141-148) becomes get_meta, with json.loads supplied
    as an oracle argument (it is an external library call); a parse
    failure, i.e. a raised exception, is the none result.

Numeric amounts are modelled as rationals. Group keys are kept in first
occurrence order of the deduplicated vendor list: pandas groupby sorts
keys alphabetically, but every property below is invariant under the
order of the groups (the target list is re-sorted afterwards), so the
key order is immaterial and left unsorted to keep the kernel able to
evaluate the definitions.
-/

namespace Vantage

/-- A loosely-typed Python value as it arrives from the store: a dict,
a string, or anything else (numbers, lists, None/NaN, ...) on which
dict lookup and json.loads both raise. -/
inductive PyVal where
  | dict (fields : List (String × PyVal))
  | str (s : String)
  | other
deriving Inhabited

/-- One row of the audit_ledger table after the numeric cleanup of
app.py lines 137-138 (total_amount already coerced to a number).
vendor_name and invoice_id are optional: the store does not guarantee
them, and pandas treats a missing cell as NaN. -/
structure Row where
  vendor_name : Option String
  invoice_id : Option String
  total_amount : ℚ
  risk_flags : PyVal

/-- One vendor aggregate produced by the groupby of app.py lines 69-72. -/
structure Agg where
  vendor_name : String
  total_spend : ℚ
  txn_count : ℕ
deriving DecidableEq

/-- Vendor keys of the groupby: pandas drops rows whose group key is
NaN, hence the filterMap over the optional vendor_name. -/
def vkeys (rows : List Row) : List String :=
  (rows.filterMap Row.vendor_name).dedup

/-- The rows of one vendor group. -/
def grp (rows : List Row) (v : String) : List Row :=
  rows.filter fun r => decide (r.vendor_name = some v)

/-- app.py lines 69-72: total_spend is the sum of total_amount over the
group, txn_count is the count of the invoice_id column, which in pandas
counts only the non-null entries of that column. -/
def aggregateStats (rows : List Row) : List Agg :=
  (vkeys rows).map fun v =>
    { vendor_name := v
      total_spend := ((grp rows v).map Row.total_amount).sum
      txn_count := ((grp rows v).filter fun r => r.invoice_id.isSome).length }

/-- Descending lexicographic order on (total_spend, txn_count), the sort
key of app.py line 76: sort_values with ascending=False on both columns. -/
abbrev targetGe (a b : Agg) : Prop :=
  b.total_spend < a.total_spend ∨
    (b.total_spend = a.total_spend ∧ b.txn_count ≤ a.txn_count)

instance : DecidableRel targetGe := fun _ _ => inferInstanceAs (Decidable (_ ∨ _))

/-- app.py line 76: stats.sort_values("total_spend", "txn_count",
ascending=False).head(25). There is no threshold filter of any kind in
the source: the selection is purely sort then truncate. The source sorts
with quicksort; any correct sort realises the same sortedness contract,
and the order among fully tied keys is unspecified either way. -/
def selectTargets (stats : List Agg) : List Agg :=
  (List.insertionSort targetGe stats).take 25

/-- app.py line 81: average ticket, guarded against a zero count. -/
def avg_ticket (row : Agg) : ℚ :=
  if 0 < row.txn_count then row.total_spend / (row.txn_count : ℚ) else 0

/-- The spec selection policy of section 4.2, stated from the spec words,
for comparison with selectTargets: a candidate qualifies if it exceeds a
spend threshold OR meets a frequency threshold. -/
abbrev specQualifies (spendThr : ℚ) (countThr : ℕ) (a : Agg) : Prop :=
  spendThr < a.total_spend ∨ countThr ≤ a.txn_count

/-- Handle for a configured narration client (Groq). -/
structure Client where
  api_key : String

/-- The external narration endpoint: prompt in, completion out. -/
abbrev Narrator := String → Option String

/-- app.py lines 65-130, execute_agent_3. With no configured client it
returns the sentinel offline line. With a client it aggregates, selects
targets, builds the evidence for the prompt, and then the function body
ends: no narration call is made (the narrate argument is never used) and
no value is returned, which in Python yields None, embedded as none.
The numeric string formatting of the evidence lines is elided; the
evidence content (vendor, total, count, average) is kept. -/
def execute_agent_3 (groq_client : Option Client) (narrate : Narrator)
    (full_df : List Row) : Option (List String) :=
  match groq_client with
  | none => some ["// ERROR: AI OFFLINE"]
  | some _ =>
    let stats := aggregateStats full_df
    let targets := selectTargets stats
    let evidence_lines := targets.map fun row =>
      (row.vendor_name, row.total_spend, row.txn_count, avg_ticket row)
    let _prompt := (narrate, evidence_lines)
    none

/-- Fuel-based worker for the embedding of Python str.split. -/
def pysplitAux (sep : List Char) : ℕ → List Char → List Char → List (List Char)
  | 0, rest, acc => [acc.reverse ++ rest]
  | fuel + 1, rest, acc =>
    match rest with
    | [] => [acc.reverse]
    | c :: cs =>
      if sep.isPrefixOf (c :: cs) then
        acc.reverse :: pysplitAux sep fuel (List.drop sep.length (c :: cs)) []
      else
        pysplitAux sep fuel cs (c :: acc)

/-- Python str.split with a non-empty separator, as used by
find.split("::") in app.py line 194. -/
def pysplit (sep s : String) : List String :=
  (pysplitAux sep.toList s.toList.length s.toList []).map fun cs => String.mk cs

/-- app.py lines 192-196: a narration line is accepted as a finding when
it is longer than 5 characters and contains the "::" separator; it is
then split into title = parts[0] and body = parts[1]. Every other line
is dropped. There is no other rule: in particular no status keyword is
inspected. -/
def parseLine (find : String) : Option (String × String) :=
  match pysplit "::" find with
  | title :: body :: _ => if 5 < find.length then some (title, body) else none
  | _ => none

/-- The findings extracted from the narration lines (the loop of app.py
lines 191-202). -/
def parseCards (lines : List String) : List (String × String) :=
  lines.filterMap parseLine

/-- app.py line 205: the only informational message of the handler. -/
def infoMsg : String := "// ANALYSIS COMPLETE. NO HIGH-PROBABILITY PATTERNS FOUND."

/-- What the scan handler renders: the finding cards, plus the generic
info message exactly when no line parsed as a finding (app.py 190-205). -/
structure ScanRender where
  cards : List (String × String)
  info : Option String
deriving DecidableEq

def renderScan (lines : List String) : ScanRender :=
  let cards := parseCards lines
  { cards := cards, info := if cards.isEmpty then some infoMsg else none }

/-- A Python exception escaping the handler. -/
inductive PyFault where
  | typeError
deriving DecidableEq

/-- app.py lines 185-205, the global_scan button handler: it iterates
over the value returned by execute_agent_3. When that value is None
(the configured-client path), the iteration raises TypeError; there is
no try/except around it, so the fault escapes the handler. -/
def global_scan (groq_client : Option Client) (narrate : Narrator)
    (df : List Row) : Except PyFault ScanRender :=
  match execute_agent_3 groq_client narrate df with
  | some findings => Except.ok (renderScan findings)
  | none => Except.error PyFault.typeError

/-- A transient failure of the ledger store. -/
inductive StoreErr where
  | timeout
deriving DecidableEq

/-- app.py lines 55-60, load_data. The store is modelled as a function
from the attempt number to that attempt result, so that the number of
attempts the code makes is observable: the body consults attempt 0 only,
and on its failure returns the empty frame at once. The cache_data TTL
decoration is not modelled; no claim depends on the cache. -/
def load_data (fetch : ℕ → Except StoreErr (List Row)) : List Row :=
  match fetch 0 with
  | Except.ok rows => rows
  | Except.error _ => []

/-- The externally supplied store credentials. -/
structure Creds where
  url : String
  key : String

/-- The externally visible render state of the whole page. -/
inductive AppRender where
  | halted
  | standby
  | dashboard (rows : List Row)

/-- app.py lines 49-62 and 135/227-228: with no store credentials the
secrets lookup raises, the outer except runs st.stop() and the script
halts (nothing is rendered, load_data is never called). With credentials
the ledger is loaded; an empty frame renders the standby screen, a
non-empty one the dashboard. -/
def app (secrets : Option Creds) (fetch : ℕ → Except StoreErr (List Row)) :
    AppRender :=
  match secrets with
  | none => AppRender.halted
  | some _ =>
    let df := load_data fetch
    if df.isEmpty then AppRender.standby else AppRender.dashboard df

/-- app.py lines 141-148, get_meta. loads is the json.loads oracle
(none models a raised exception). A dict payload is looked up directly;
a string payload is parsed first; every failure path (loads raises, the
parse result is not a dict, the payload is neither dict nor string, the
key is absent) lands on the placeholder. -/
def get_meta (loads : String → Option PyVal) (x : PyVal) (key : String) : PyVal :=
  match x with
  | PyVal.dict fields =>
    ((fields.find? fun p => p.1 == key).map Prod.snd).getD (PyVal.str "-")
  | PyVal.str s =>
    match loads s with
    | some (PyVal.dict fields) =>
      ((fields.find? fun p => p.1 == key).map Prod.snd).getD (PyVal.str "-")
    | _ => PyVal.str "-"
  | PyVal.other => PyVal.str "-"

/-- The meta value actually present under a key, if any: the payload is
a dict, or a string that parses to a dict, holding the key. Used to
state when get_meta must fall back to the placeholder. -/
def metaLookup (loads : String → Option PyVal) (x : PyVal) (key : String) :
    Option PyVal :=
  match x with
  | PyVal.dict fields => (fields.find? fun p => p.1 == key).map Prod.snd
  | PyVal.str s =>
    match loads s with
    | some (PyVal.dict fields) => (fields.find? fun p => p.1 == key).map Prod.snd
    | _ => none
  | PyVal.other => none

/-- Replacing the risk_flags payload of a row (the derived-column step of
app.py lines 147-148 reads risk_flags and writes new columns; the fields
the aggregation reads are untouched). -/
def setFlags (f : Row → PyVal) (r : Row) : Row :=
  { r with risk_flags := f r }

/-! Helper lemmas about the aggregation. -/

lemma sum_map_add {α : Type} (l : List α) (f g : α → ℕ) :
    (l.map fun x => f x + g x).sum = (l.map f).sum + (l.map g).sum := by
  induction l with
  | nil => simp
  | cons a t ih => simp only [List.map_cons, List.sum_cons, ih]; omega

lemma sum_indicator_zero (v₀ : String) (keys : List String) (h : v₀ ∉ keys) :
    (keys.map fun v => if v₀ = v then (1 : ℕ) else 0).sum = 0 := by
  induction keys with
  | nil => simp
  | cons k t ih =>
    simp only [List.map_cons, List.sum_cons]
    have h1 : ¬ (v₀ = k) := by
      intro hh
      exact h (by rw [hh]; exact List.mem_cons_self k t)
    rw [if_neg h1, ih (fun hm => h (List.mem_cons_of_mem k hm))]

lemma sum_indicator_one (v₀ : String) (keys : List String) (hnd : keys.Nodup)
    (hm : v₀ ∈ keys) :
    (keys.map fun v => if v₀ = v then (1 : ℕ) else 0).sum = 1 := by
  induction keys with
  | nil => cases hm
  | cons k t ih =>
    obtain ⟨hk, ht⟩ := List.nodup_cons.mp hnd
    simp only [List.map_cons, List.sum_cons]
    rcases List.mem_cons.mp hm with h | h
    · rw [if_pos h, sum_indicator_zero v₀ t (by rw [h]; exact hk)]
    · have hne : ¬ (v₀ = k) := by
        intro he
        exact hk (by rw [← he]; exact h)
      rw [if_neg hne, ih ht h]

lemma grp_cons_length (r : Row) (rest : List Row) (v₀ : String)
    (hv₀ : r.vendor_name = some v₀) (v : String) :
    (grp (r :: rest) v).length = (if v₀ = v then 1 else 0) + (grp rest v).length := by
  simp only [grp, List.filter_cons, hv₀]
  by_cases hv : v₀ = v
  · subst hv; simp; omega
  · simp [hv]

lemma sum_group_sizes (keys : List String) (rows : List Row) (hnd : keys.Nodup)
    (hcov : ∀ r ∈ rows, ∃ v, r.vendor_name = some v ∧ v ∈ keys) :
    (keys.map fun v => (grp rows v).length).sum = rows.length := by
  induction rows with
  | nil => simp [grp]
  | cons r rest ih =>
    obtain ⟨v₀, hv₀, hm⟩ := hcov r (List.mem_cons_self r rest)
    calc (keys.map fun v => (grp (r :: rest) v).length).sum
        = (keys.map fun v => (if v₀ = v then 1 else 0) + (grp rest v).length).sum := by
          exact congrArg List.sum
            (List.map_congr_left fun v _ => grp_cons_length r rest v₀ hv₀ v)
      _ = (keys.map fun v => if v₀ = v then (1 : ℕ) else 0).sum
            + (keys.map fun v => (grp rest v).length).sum := sum_map_add keys _ _
      _ = 1 + rest.length := by
          rw [sum_indicator_one v₀ keys hnd hm,
            ih (fun q hq => hcov q (List.mem_cons_of_mem r hq))]
      _ = (r :: rest).length := by simp [List.length_cons]; omega

lemma vendor_mem_vkeys {rows : List Row} {r : Row} {v : String}
    (hr : r ∈ rows) (hv : r.vendor_name = some v) : v ∈ vkeys rows :=
  List.mem_dedup.mpr (List.mem_filterMap.mpr ⟨r, hr, hv⟩)

lemma exists_row_of_mem_vkeys {rows : List Row} {v : String}
    (h : v ∈ vkeys rows) : ∃ r ∈ rows, r.vendor_name = some v :=
  List.mem_filterMap.mp (List.mem_dedup.mp h)

lemma nodup_vkeys (rows : List Row) : (vkeys rows).Nodup :=
  List.nodup_dedup _

lemma txn_filter_eq (rows : List Row)
    (hinv : ∀ r ∈ rows, r.invoice_id.isSome = true) (v : String) :
    ((grp rows v).filter fun r => r.invoice_id.isSome) = grp rows v :=
  List.filter_eq_self.mpr fun r hr =>
    hinv r (List.mem_of_mem_filter hr)

lemma txn_count_pos_of_invoices {rows : List Row}
    (hinv : ∀ r ∈ rows, r.invoice_id.isSome = true) :
    ∀ g ∈ aggregateStats rows, 0 < g.txn_count := by
  intro g hg
  obtain ⟨v, hv, rfl⟩ := List.mem_map.mp hg
  obtain ⟨r, hr, hrv⟩ := exists_row_of_mem_vkeys hv
  have hrg : r ∈ grp rows v := List.mem_filter.mpr ⟨hr, by simp [hrv]⟩
  have hmem : r ∈ (grp rows v).filter fun q => q.invoice_id.isSome :=
    List.mem_filter.mpr ⟨hrg, hinv r hr⟩
  exact List.length_pos.mpr (List.ne_nil_of_mem hmem)

lemma countP_decide_eq_one {v₀ : String} {keys : List String}
    (hnd : keys.Nodup) (hm : v₀ ∈ keys) :
    keys.countP (fun v => decide (v₀ = v)) = 1 := by
  induction keys with
  | nil => cases hm
  | cons k t ih =>
    obtain ⟨hk, ht⟩ := List.nodup_cons.mp hnd
    rw [List.countP_cons]
    rcases List.mem_cons.mp hm with h | h
    · rw [List.countP_eq_zero.mpr fun a ha => by
          simp only [decide_eq_true_eq]
          intro he
          exact hk (by rw [h.symm.trans he]; exact ha),
        if_pos (by simp [h])]
    · rw [ih ht h, if_neg (by
        simp only [decide_eq_true_eq]
        intro he
        exact hk (by rw [← he]; exact h))]

lemma aggregateStats_setFlags (f : Row → PyVal) (rows : List Row) :
    aggregateStats (rows.map (setFlags f)) = aggregateStats rows := by
  have hvk : vkeys (rows.map (setFlags f)) = vkeys rows := by
    unfold vkeys
    rw [List.filterMap_map,
      show (Row.vendor_name ∘ setFlags f) = Row.vendor_name from funext fun r => rfl]
  have hgrp : ∀ v, grp (rows.map (setFlags f)) v = (grp rows v).map (setFlags f) := by
    intro v
    unfold grp
    rw [List.filter_map,
      show ((fun r : Row => decide (r.vendor_name = some v)) ∘ setFlags f)
        = fun r : Row => decide (r.vendor_name = some v) from funext fun r => rfl]
  unfold aggregateStats
  rw [hvk]
  refine List.map_congr_left fun v _ => ?_
  have h1 : ((grp (rows.map (setFlags f)) v).map Row.total_amount)
      = (grp rows v).map Row.total_amount := by
    rw [hgrp v, List.map_map,
      show (Row.total_amount ∘ setFlags f) = Row.total_amount from funext fun r => rfl]
  have h2 : ((grp (rows.map (setFlags f)) v).filter fun r => r.invoice_id.isSome).length
      = ((grp rows v).filter fun r => r.invoice_id.isSome).length := by
    rw [hgrp v, List.filter_map,
      show ((fun r : Row => r.invoice_id.isSome) ∘ setFlags f)
        = fun r : Row => r.invoice_id.isSome from funext fun r => rfl,
      List.length_map]
  simp only [h1, h2]

/-! Instances needed to reason about the target sort order. -/

instance : IsTotal Agg targetGe := by
  constructor
  intro a b
  rcases lt_trichotomy b.total_spend a.total_spend with h | h | h
  · exact Or.inl (Or.inl h)
  · rcases Nat.le_total b.txn_count a.txn_count with hc | hc
    · exact Or.inl (Or.inr ⟨h, hc⟩)
    · exact Or.inr (Or.inr ⟨h.symm, hc⟩)
  · exact Or.inr (Or.inl h)

instance : IsTrans Agg targetGe := by
  constructor
  intro a b c hab hbc
  rcases hab with h₁ | ⟨h₁, hc₁⟩ <;> rcases hbc with h₂ | ⟨h₂, hc₂⟩
  · exact Or.inl (h₂.trans h₁)
  · exact Or.inl (lt_of_le_of_lt (le_of_eq h₂) h₁)
  · exact Or.inl (lt_of_lt_of_le h₂ (le_of_eq h₁))
  · exact Or.inr ⟨h₂.trans h₁, hc₂.trans hc₁⟩

/-! Concrete inputs used by counterexamples and witnesses. -/

def c3agg : Agg := { vendor_name := "Dust", total_spend := 1, txn_count := 1 }

def c4exRow : Row :=
  { vendor_name := some "Acme", invoice_id := some "INV-1", total_amount := 5
    risk_flags := PyVal.other }

def c4exFetch : ℕ → Except StoreErr (List Row) := fun n =>
  if n = 0 then Except.error StoreErr.timeout else Except.ok [c4exRow]

def c5xRow : Row :=
  { vendor_name := some "Acme", invoice_id := none, total_amount := 5
    risk_flags := PyVal.other }

def c5wRow : Row :=
  { vendor_name := some "Acme", invoice_id := some "INV-1", total_amount := 5
    risk_flags := PyVal.other }

def c7exCreds : Creds := { url := "https://store.example", key := "service-key" }

def c7exFetchFail : ℕ → Except StoreErr (List Row) := fun _ =>
  Except.error StoreErr.timeout

def c8agg : Agg := { vendor_name := "Hub", total_spend := 7, txn_count := 3 }

def c9xRow : Row :=
  { vendor_name := some "Orbit", invoice_id := none, total_amount := 100
    risk_flags := PyVal.other }

def c9wRow : Row :=
  { vendor_name := some "Orbit", invoice_id := some "INV-9", total_amount := 100
    risk_flags := PyVal.other }

/-! The claims. -/

/-- C1: the claim says that when the narration service is unavailable the
scan returns the single sentinel offline line, and that no fault from the
narration step ever propagates past the core boundary. The first half
holds: with no configured client execute_agent_3 returns exactly the
sentinel line. The second half is violated by the code: with a configured
client execute_agent_3 returns None (its body ends without a return), and
the global_scan handler then iterates over None, which raises TypeError
past the boundary. This theorem evaluates both branches of the code. -/
theorem c1_scan_fault :
    (∀ (narrate : Narrator) (df : List Row),
      execute_agent_3 none narrate df = some ["// ERROR: AI OFFLINE"]) ∧
    ∀ (c : Client) (narrate : Narrator) (df : List Row),
      global_scan (some c) narrate df = Except.error PyFault.typeError :=
  ⟨fun _ _ => rfl, fun _ _ _ => rfl⟩

/-- C2: with a configured client, execute_agent_3 builds the prompt data
but performs no narration call and returns None. The narration endpoint
is an explicit argument, so the second conjunct states literally that the
result does not depend on the narration service at all: no call is made.
The first conjunct is the None return that the caller then iterates over. -/
theorem c2_agent3_returns_none :
    ∀ (c : Client) (n₁ n₂ : Narrator) (df : List Row),
      execute_agent_3 (some c) n₁ df = none ∧
        execute_agent_3 (some c) n₁ df = execute_agent_3 (some c) n₂ df :=
  fun _ _ _ _ => ⟨rfl, rfl⟩

/-- C3 counterexample: the aggregate (Dust, spend 1, count 1) exceeds
neither the representative spend threshold 3000 nor the frequency
threshold 2, yet it is among the selection candidates, refuting the
claimed equivalence between candidacy and threshold qualification. -/
theorem c3_counterexample :
    ¬ specQualifies 3000 2 c3agg ∧ c3agg ∈ selectTargets [c3agg] := by
  decide

/-- C3 amended: the code applies no spend or frequency threshold at all.
Selection is purely sort-then-truncate: whenever there are at most 25
aggregates, every aggregate, qualifying or not, is a selection candidate. -/
theorem c3_selection_has_no_threshold (stats : List Agg)
    (h : stats.length ≤ 25) : ∀ a ∈ stats, a ∈ selectTargets stats := by
  intro a ha
  unfold selectTargets
  rw [List.take_of_length_le (by rw [List.length_insertionSort]; exact h)]
  exact ((List.perm_insertionSort targetGe stats).mem_iff).mpr ha

/-- C3 witness: the amended theorem applied to a one-aggregate input. -/
theorem c3_witness :
    ([c3agg] : List Agg).length ≤ 25 ∧ c3agg ∈ selectTargets [c3agg] :=
  ⟨by decide, c3_selection_has_no_threshold [c3agg] (by decide) c3agg (by decide)⟩

/-- C4 counterexample: a store that fails on the first attempt and would
succeed on the second. load_data returns the empty set even though a
retry would have succeeded, refuting the claimed 3-attempt retry loop. -/
theorem c4_counterexample :
    load_data c4exFetch = [] ∧ c4exFetch 1 = Except.ok [c4exRow] ∧
      ([c4exRow] : List Row) ≠ [] :=
  ⟨rfl, rfl, by simp⟩

/-- C4 amended: load_data makes exactly one fetch attempt, with no retry
and no backoff: when attempt 0 fails it immediately degrades to the empty
result set instead of raising, and its result is entirely determined by
attempt 0. -/
theorem c4_load_single_attempt (f : ℕ → Except StoreErr (List Row))
    (e : StoreErr) (h : f 0 = Except.error e) :
    load_data f = [] ∧
      ∀ g : ℕ → Except StoreErr (List Row), g 0 = f 0 → load_data g = load_data f := by
  constructor
  · simp [load_data, h]
  · intro g hg
    simp [load_data, hg]

/-- C4 witness: the amended theorem applied to the concrete failing store. -/
theorem c4_witness :
    c4exFetch 0 = Except.error StoreErr.timeout ∧ load_data c4exFetch = [] :=
  ⟨rfl, (c4_load_single_attempt c4exFetch StoreErr.timeout rfl).1⟩

/-- C5 counterexample: one row whose invoice_id is missing. The groupby
counts only non-null invoice ids, so the sum of txn_count over the
aggregates is 0 while the input has 1 transaction, refuting completeness
for arbitrary inputs. -/
theorem c5_counterexample :
    ((aggregateStats [c5xRow]).map Agg.txn_count).sum ≠ ([c5xRow] : List Row).length := by
  decide

/-- C5 amended: for inputs in which every row carries a vendor_name and an
invoice_id (the columns pandas would otherwise drop from the key or the
count), grouping is complete: the txn_counts sum to the number of input
rows, every row vendor appears in exactly one output group, and no empty
group appears. -/
theorem c5_grouping_complete_on_clean_rows (rows : List Row)
    (h : ∀ r ∈ rows, r.vendor_name.isSome = true ∧ r.invoice_id.isSome = true) :
    ((aggregateStats rows).map Agg.txn_count).sum = rows.length ∧
      (∀ r ∈ rows, (aggregateStats rows).countP
        (fun g => decide (r.vendor_name = some g.vendor_name)) = 1) ∧
      ∀ g ∈ aggregateStats rows, 0 < g.txn_count := by
  have hinv : ∀ r ∈ rows, r.invoice_id.isSome = true := fun r hr => (h r hr).2
  have hcov : ∀ r ∈ rows, ∃ v, r.vendor_name = some v ∧ v ∈ vkeys rows := by
    intro r hr
    obtain ⟨v, hv⟩ := Option.isSome_iff_exists.mp (h r hr).1
    exact ⟨v, hv, vendor_mem_vkeys hr hv⟩
  refine ⟨?_, ?_, txn_count_pos_of_invoices hinv⟩
  · unfold aggregateStats
    rw [List.map_map]
    have hfun : ∀ v ∈ vkeys rows,
        (Agg.txn_count ∘ fun v => Agg.mk v ((grp rows v).map Row.total_amount).sum
          ((grp rows v).filter fun r => r.invoice_id.isSome).length) v
          = (grp rows v).length := by
      intro v _
      simp only [Function.comp]
      rw [txn_filter_eq rows hinv v]
    rw [List.map_congr_left hfun]
    exact sum_group_sizes (vkeys rows) rows (nodup_vkeys rows) hcov
  · intro r hr
    obtain ⟨v₀, hv₀, hm⟩ := hcov r hr
    unfold aggregateStats
    rw [List.countP_map]
    have hfun : ((fun g : Agg => decide (r.vendor_name = some g.vendor_name)) ∘
        fun v => Agg.mk v ((grp rows v).map Row.total_amount).sum
          ((grp rows v).filter fun q => q.invoice_id.isSome).length)
        = fun v => decide (v₀ = v) := by
      funext v
      simp [Function.comp, hv₀]
    rw [hfun]
    exact countP_decide_eq_one (nodup_vkeys rows) hm

/-- C5 witness: the amended theorem applied to two clean Acme rows, whose
single group counts both transactions. -/
theorem c5_witness :
    (∀ r ∈ [c5wRow, c5wRow], r.vendor_name.isSome = true ∧ r.invoice_id.isSome = true) ∧
      ((aggregateStats [c5wRow, c5wRow]).map Agg.txn_count).sum = 2 :=
  ⟨by decide, (c5_grouping_complete_on_clean_rows [c5wRow, c5wRow] (by decide)).1⟩

/-- C6 counterexample: on the narration text of the claim, the code emits
one TITANIUM card and nothing else: the STATUS line is silently dropped
(it lacks the separator) and the informational message is not shown,
because a valid finding exists. The claim says the STATUS line should be
surfaced as an informational message. -/
theorem c6_counterexample :
    renderScan ["TITANIUM :: STRUCTURING (Value: $5k)", "noise", "STATUS: NOMINAL"] =
      { cards := [("TITANIUM ", " STRUCTURING (Value: $5k)")], info := none } := by
  decide

/-- C6 amended: status-keyword lines receive no special handling: any line
without the separator, STATUS or NOMINAL lines included, contributes
nothing to the parsed output, and the only informational message is the
generic no-findings notice shown when no line at all parses. -/
theorem c6_separatorless_line_invisible (pre post : List String) (l : String)
    (h : (pysplit "::" l).length ≤ 1) :
    parseCards (pre ++ l :: post) = parseCards (pre ++ post) := by
  have hnone : parseLine l = none := by
    unfold parseLine
    rcases hsplit : pysplit "::" l with _ | ⟨t, rest⟩
    · rfl
    · rcases rest with _ | ⟨b, rest2⟩
      · rfl
      · rw [hsplit] at h; simp at h
  simp only [parseCards, List.filterMap_append, List.filterMap_cons, hnone]

/-- C6 witness: the amended theorem applied to the STATUS line of the
claim, inserted after a valid finding line. -/
theorem c6_witness :
    (pysplit "::" "STATUS: NOMINAL").length ≤ 1 ∧
      parseCards ["TITANIUM :: STRUCTURING (Value: $5k)", "STATUS: NOMINAL"] =
        parseCards ["TITANIUM :: STRUCTURING (Value: $5k)"] :=
  ⟨by decide,
    c6_separatorless_line_invisible ["TITANIUM :: STRUCTURING (Value: $5k)"] []
      "STATUS: NOMINAL" (by decide)⟩

/-- C7 counterexample: with no credentials configured the app halts at
startup even though the store itself would answer, so load never returns
an empty renderable set: the claim confuses the configuration-fatal path
with the degraded-load path. -/
theorem c7_counterexample :
    app none (fun _ => Except.ok [c4exRow]) = AppRender.halted ∧
      AppRender.halted ≠ AppRender.standby :=
  ⟨rfl, fun h => AppRender.noConfusion h⟩

/-- C7 amended: missing store credentials are configuration-fatal: the
script stops before any load. With credentials present and a failing
store, load_data returns the empty set without raising and the page
renders the distinct standby no-data state. -/
theorem c7_credentials_fatal_load_degrades :
    (∀ fetch : ℕ → Except StoreErr (List Row), app none fetch = AppRender.halted) ∧
    ∀ (creds : Creds) (fetch : ℕ → Except StoreErr (List Row)) (e : StoreErr),
      fetch 0 = Except.error e → app (some creds) fetch = AppRender.standby := by
  constructor
  · intro _
    rfl
  · intro creds fetch e h
    simp [app, load_data, h]

/-- C7 witness: the amended theorem applied to concrete credentials and an
always-failing store. -/
theorem c7_witness :
    c7exFetchFail 0 = Except.error StoreErr.timeout ∧
      app (some c7exCreds) c7exFetchFail = AppRender.standby :=
  ⟨rfl, c7_credentials_fatal_load_degrades.2 c7exCreds c7exFetchFail StoreErr.timeout rfl⟩

/-- C8: the selection output is sorted by total_spend descending with
txn_count descending as tie-break (pairwise, any earlier element relates
to any later one by targetGe, so an element with strictly larger spend
always precedes), it never exceeds the bound of 25, and it only contains
input aggregates. -/
theorem c8_targets_sorted_bounded (stats : List Agg) :
    (selectTargets stats).length ≤ 25 ∧
      List.Sorted targetGe (selectTargets stats) ∧
      ∀ a ∈ selectTargets stats, a ∈ stats := by
  refine ⟨?_, ?_, ?_⟩
  · unfold selectTargets
    rw [List.length_take]
    exact min_le_left 25 _
  · exact List.Pairwise.sublist (List.take_sublist 25 _)
      (List.sorted_insertionSort targetGe stats)
  · intro a ha
    have hmem := (List.take_sublist 25 (List.insertionSort targetGe stats)).subset ha
    exact ((List.perm_insertionSort targetGe stats).mem_iff).mp hmem

/-- C8 witness: the membership conjunct applied to a singleton input. -/
theorem c8_witness : c8agg ∈ selectTargets [c8agg] ∧ c8agg ∈ ([c8agg] : List Agg) :=
  ⟨by decide, (c8_targets_sorted_bounded [c8agg]).2.2 c8agg (by decide)⟩

/-- C9 counterexample: a row whose invoice_id is missing produces an
aggregate whose txn_count is 0, so a vendor with 0 counted transactions
does appear in the aggregates, refuting the second half of the claim
(the division guard itself still prevents any division by zero). -/
theorem c9_counterexample :
    ¬ ∀ g ∈ aggregateStats [c9xRow], 0 < g.txn_count := by
  decide

/-- C9 amended: avg_ticket is guarded, equalling total_spend divided by
txn_count whenever txn_count is positive (so that avg_ticket times the
count recovers the spend) and 0 when the count is 0, so no division by
zero ever occurs; and when every row carries an invoice_id, every
aggregate has a positive txn_count. A zero-count aggregate can appear
only for rows lacking invoice ids, as the counterexample shows. -/
theorem c9_avg_ticket_guarded (rows : List Row)
    (hinv : ∀ r ∈ rows, r.invoice_id.isSome = true) :
    (∀ g ∈ aggregateStats rows, 0 < g.txn_count) ∧
      ∀ g : Agg, (0 < g.txn_count → avg_ticket g * (g.txn_count : ℚ) = g.total_spend) ∧
        (g.txn_count = 0 → avg_ticket g = 0) := by
  refine ⟨txn_count_pos_of_invoices hinv, fun g => ⟨?_, ?_⟩⟩
  · intro hpos
    unfold avg_ticket
    rw [if_pos hpos]
    exact div_mul_cancel₀ _ (Nat.cast_ne_zero.mpr (Nat.pos_iff_ne_zero.mp hpos))
  · intro h0
    unfold avg_ticket
    rw [if_neg (by omega)]

/-- C9 witness: the amended theorem applied to a single clean Orbit row. -/
theorem c9_witness :
    (∀ r ∈ [c9wRow], r.invoice_id.isSome = true) ∧
      ∀ g ∈ aggregateStats [c9wRow], 0 < g.txn_count :=
  ⟨by decide, (c9_avg_ticket_guarded [c9wRow] (by decide)).1⟩

/-- C10: when the risk_flags payload carries no value under the requested
key (it is not a dict, or a string that fails to parse, or parses to a
non-dict, or the key is absent), get_meta returns the placeholder without
raising; and the aggregation never reads risk_flags, so a row with any
payload whatsoever is still included in all aggregates. -/
theorem c10_meta_defaults_and_rows_kept (loads : String → Option PyVal)
    (key : String) (x : PyVal) (h : metaLookup loads x key = none) :
    get_meta loads x key = PyVal.str "-" ∧
      ∀ (f : Row → PyVal) (rows : List Row),
        aggregateStats (rows.map (setFlags f)) = aggregateStats rows := by
  constructor
  · cases x with
    | dict fields =>
      simp only [metaLookup] at h
      simp [get_meta, h]
    | str s =>
      cases hl : loads s with
      | none => simp [get_meta, hl]
      | some p =>
        cases p with
        | dict fields =>
          have h2 : (fields.find? fun p => p.1 == key).map Prod.snd = none := by
            simpa [metaLookup, hl] using h
          simp [get_meta, hl, h2]
        | str s2 => simp [get_meta, hl]
        | other => simp [get_meta, hl]
    | other => rfl
  · intro f rows
    exact aggregateStats_setFlags f rows

/-- C10 witness: the theorem applied to a payload string that json.loads
rejects. -/
theorem c10_witness :
    metaLookup (fun _ => none) (PyVal.str "not json") "approver" = none ∧
      get_meta (fun _ => none) (PyVal.str "not json") "approver" = PyVal.str "-" :=
  ⟨rfl, (c10_meta_defaults_and_rows_kept (fun _ => none) "approver"
    (PyVal.str "not json") rfl).1⟩

end Vantage
